import Mathlib

/-!
# Lead Pipeline Engine: shallow embedding

A shallow embedding of the core services of the insurance-revenue-engine
repository (ScoringService, ActivityService, PolicyService,
CommissionService, AutomationService), with theorems checking the
natural-language specification against the translated code.

Conventions of the embedding:
* TypeScript numbers holding scores and day counts become `Int`;
  monetary premiums and commission rates become `ℚ` (the rate tables are
  exact decimal constants, so `ℚ` arithmetic coincides with the source's
  arithmetic on all inputs used here).
* `prisma` store reads/writes become explicit state passing; side effects
  that the claims talk about (score recomputes, event emissions to the
  dispatcher, lead-status writes, activity rows) are recorded in traces.
* Fallible operations (`try`/`catch`, prisma rejections) become `Except`.
* `JSON.parse` of a Campaign's stored `triggerCondition` / `actions` blob
  is modelled by storing the parse result: `none` stands for malformed
  JSON (or a non-array `actions` blob), `some v` for the parsed value.
-/

/-! ## Enumerations (from the prisma client as used by the services) -/

/-- Lead pipeline status (`LeadStatus`), the twelve values handled by
`ScoringService.getStatusScore`. -/
inductive LeadStatus
  | NEW | CONTACTED | ENGAGED | QUALIFIED | PROPOSAL | APPLICATION
  | UNDERWRITING | PLACED | NOT_PLACED | NOT_INTERESTED | UNRESPONSIVE | LOST
deriving Repr, DecidableEq, Fintype

/-- Lead intent level (`IntentLevel`). -/
inductive IntentLevel
  | HOT | WARM | COLD | UNKNOWN | NONE
deriving Repr, DecidableEq, Fintype

/-- Activity type (`ActivityType`), the values used across the services. -/
inductive ActivityType
  | MEETING_COMPLETED | APPLICATION_SENT | PROPOSAL_SENT | CALL_INBOUND
  | CALL_OUTBOUND | TEXT_RECEIVED | TEXT_SENT | EMAIL_RECEIVED | EMAIL_SENT
  | APPOINTMENT_SET | MEETING_SCHEDULED | NOTE
deriving Repr, DecidableEq, Fintype

/-- Activity outcome (`ActivityOutcome`), the values used across the
services. -/
inductive ActivityOutcome
  | POSITIVE | INTERESTED | SOLD | NEUTRAL | NEGATIVE | NOT_INTERESTED
  | NO_ANSWER | LEFT_MESSAGE | CALLBACK | FOLLOW_UP_SET
deriving Repr, DecidableEq, Fintype

/-- Policy status (`PolicyStatus`). -/
inductive PolicyStatus
  | QUOTED | APPLIED | UNDERWRITING | APPROVED | ISSUED
  | PENDING_REQUIREMENTS | DECLINED | POSTPONED | WITHDRAWN
  | LAPSED | SURRENDERED | REPLACED
deriving Repr, DecidableEq, Fintype

/-- Insurance product type (`ProductType`), keys of the commission rate
tables in `CommissionService`. -/
inductive ProductType
  | TERM_LIFE | WHOLE_LIFE | UNIVERSAL_LIFE | FINAL_EXPENSE | IUL
  | HEALTH_ACA | HEALTH_SHORT_TERM | MEDICARE_SUPPLEMENT | MEDICARE_ADVANTAGE
  | DENTAL | VISION | DISABILITY_INCOME | CRITICAL_ILLNESS | LONG_TERM_CARE
  | ANNUITY | OTHER
deriving Repr, DecidableEq, Fintype

/-- Commission type (`CommissionType`). -/
inductive CommissionType
  | FIRST_YEAR | RENEWAL | BONUS
deriving Repr, DecidableEq, Fintype

/-- Commission status (`CommissionStatus`). -/
inductive CommissionStatus
  | PENDING | PAID | CLAWED_BACK
deriving Repr, DecidableEq, Fintype

/-! ## Scoring Engine (ScoringService) -/

/-- The scoring weights, verbatim from `SCORING_CONFIG`. -/
structure ScoringConfig where
  BASE_SCORE : Int
  MAX_SCORE : Int
  INTENT_HOT : Int
  INTENT_WARM : Int
  INTENT_COLD : Int
  INTENT_UNKNOWN : Int
  INTENT_NONE : Int
  STATUS_NEW : Int
  STATUS_CONTACTED : Int
  STATUS_ENGAGED : Int
  STATUS_QUALIFIED : Int
  STATUS_PROPOSAL : Int
  STATUS_APPLICATION : Int
  STATUS_UNDERWRITING : Int
  STATUS_PLACED : Int
  STATUS_NOT_PLACED : Int
  STATUS_NOT_INTERESTED : Int
  STATUS_UNRESPONSIVE : Int
  STATUS_LOST : Int
  ACTIVITY_MEETING_COMPLETED : Int
  ACTIVITY_APPLICATION_SENT : Int
  ACTIVITY_PROPOSAL_SENT : Int
  ACTIVITY_CALL_INBOUND : Int
  ACTIVITY_CALL_OUTBOUND : Int
  ACTIVITY_TEXT_RECEIVED : Int
  ACTIVITY_TEXT_SENT : Int
  ACTIVITY_EMAIL_RECEIVED : Int
  ACTIVITY_EMAIL_SENT : Int
  ACTIVITY_APPOINTMENT_SET : Int
  ACTIVITY_DEFAULT : Int
  OUTCOME_POSITIVE : Int
  OUTCOME_INTERESTED : Int
  OUTCOME_SOLD : Int
  OUTCOME_NEUTRAL : Int
  OUTCOME_NEGATIVE : Int
  OUTCOME_NOT_INTERESTED : Int
  OUTCOME_NO_ANSWER : Int
  OUTCOME_LEFT_MESSAGE : Int
  TIME_DECAY_ENABLED : Bool
  TIME_DECAY_DAYS : List Int
  TIME_DECAY_AMOUNT : List Int

/-- `SCORING_CONFIG` from `ScoringService`. -/
def SCORING_CONFIG : ScoringConfig where
  BASE_SCORE := 0
  MAX_SCORE := 100
  INTENT_HOT := 50
  INTENT_WARM := 30
  INTENT_COLD := 10
  INTENT_UNKNOWN := 0
  INTENT_NONE := -10
  STATUS_NEW := 0
  STATUS_CONTACTED := 5
  STATUS_ENGAGED := 15
  STATUS_QUALIFIED := 30
  STATUS_PROPOSAL := 45
  STATUS_APPLICATION := 60
  STATUS_UNDERWRITING := 75
  STATUS_PLACED := 100
  STATUS_NOT_PLACED := -20
  STATUS_NOT_INTERESTED := -30
  STATUS_UNRESPONSIVE := -10
  STATUS_LOST := -20
  ACTIVITY_MEETING_COMPLETED := 20
  ACTIVITY_APPLICATION_SENT := 40
  ACTIVITY_PROPOSAL_SENT := 15
  ACTIVITY_CALL_INBOUND := 10
  ACTIVITY_CALL_OUTBOUND := 5
  ACTIVITY_TEXT_RECEIVED := 8
  ACTIVITY_TEXT_SENT := 3
  ACTIVITY_EMAIL_RECEIVED := 7
  ACTIVITY_EMAIL_SENT := 2
  ACTIVITY_APPOINTMENT_SET := 15
  ACTIVITY_DEFAULT := 2
  OUTCOME_POSITIVE := 10
  OUTCOME_INTERESTED := 15
  OUTCOME_SOLD := 50
  OUTCOME_NEUTRAL := 0
  OUTCOME_NEGATIVE := -5
  OUTCOME_NOT_INTERESTED := -15
  OUTCOME_NO_ANSWER := -2
  OUTCOME_LEFT_MESSAGE := 2
  TIME_DECAY_ENABLED := true
  TIME_DECAY_DAYS := [30, 60, 90]
  TIME_DECAY_AMOUNT := [5, 10, 20]

/-- An Activity row as the Scoring Engine consumes it: type, optional
outcome, and its immutable `timestamp` in milliseconds since the epoch.
Activity lists are ordered newest-first (`orderBy: timestamp desc`), as
the scoring code requires. -/
structure Activity where
  type : ActivityType
  outcome : Option ActivityOutcome
  timestamp : Int
deriving Repr, DecidableEq

/-- The slice of a Lead row read by the Scoring Engine: `status`,
`intentLevel`, stored `score`, and `updatedAt` (ms since epoch). -/
structure LeadRec where
  status : LeadStatus
  intentLevel : IntentLevel
  score : Int
  updatedAt : Int
deriving Repr, DecidableEq

/-- `ScoringService.getIntentScore`. -/
def getIntentScore : IntentLevel → Int
  | .HOT => SCORING_CONFIG.INTENT_HOT
  | .WARM => SCORING_CONFIG.INTENT_WARM
  | .COLD => SCORING_CONFIG.INTENT_COLD
  | .NONE => SCORING_CONFIG.INTENT_NONE
  | .UNKNOWN => SCORING_CONFIG.INTENT_UNKNOWN

/-- `ScoringService.getStatusScore`. -/
def getStatusScore : LeadStatus → Int
  | .PLACED => SCORING_CONFIG.STATUS_PLACED
  | .UNDERWRITING => SCORING_CONFIG.STATUS_UNDERWRITING
  | .APPLICATION => SCORING_CONFIG.STATUS_APPLICATION
  | .PROPOSAL => SCORING_CONFIG.STATUS_PROPOSAL
  | .QUALIFIED => SCORING_CONFIG.STATUS_QUALIFIED
  | .ENGAGED => SCORING_CONFIG.STATUS_ENGAGED
  | .CONTACTED => SCORING_CONFIG.STATUS_CONTACTED
  | .NEW => SCORING_CONFIG.STATUS_NEW
  | .UNRESPONSIVE => SCORING_CONFIG.STATUS_UNRESPONSIVE
  | .NOT_PLACED => SCORING_CONFIG.STATUS_NOT_PLACED
  | .LOST => SCORING_CONFIG.STATUS_LOST
  | .NOT_INTERESTED => SCORING_CONFIG.STATUS_NOT_INTERESTED

/-- `ScoringService.getActivityTypeScore`; the `default` arm covers
`MEETING_SCHEDULED` and `NOTE`. -/
def getActivityTypeScore : ActivityType → Int
  | .MEETING_COMPLETED => SCORING_CONFIG.ACTIVITY_MEETING_COMPLETED
  | .APPLICATION_SENT => SCORING_CONFIG.ACTIVITY_APPLICATION_SENT
  | .PROPOSAL_SENT => SCORING_CONFIG.ACTIVITY_PROPOSAL_SENT
  | .CALL_INBOUND => SCORING_CONFIG.ACTIVITY_CALL_INBOUND
  | .CALL_OUTBOUND => SCORING_CONFIG.ACTIVITY_CALL_OUTBOUND
  | .TEXT_RECEIVED => SCORING_CONFIG.ACTIVITY_TEXT_RECEIVED
  | .TEXT_SENT => SCORING_CONFIG.ACTIVITY_TEXT_SENT
  | .EMAIL_RECEIVED => SCORING_CONFIG.ACTIVITY_EMAIL_RECEIVED
  | .EMAIL_SENT => SCORING_CONFIG.ACTIVITY_EMAIL_SENT
  | .APPOINTMENT_SET => SCORING_CONFIG.ACTIVITY_APPOINTMENT_SET
  | _ => SCORING_CONFIG.ACTIVITY_DEFAULT

/-- `ScoringService.getOutcomeScore`; `NEUTRAL`, `CALLBACK`,
`LEFT_MESSAGE` and `FOLLOW_UP_SET` all map to `OUTCOME_NEUTRAL` (0) in
the source's switch, as does its `default` arm. -/
def getOutcomeScore : ActivityOutcome → Int
  | .SOLD => SCORING_CONFIG.OUTCOME_SOLD
  | .INTERESTED => SCORING_CONFIG.OUTCOME_INTERESTED
  | .POSITIVE => SCORING_CONFIG.OUTCOME_POSITIVE
  | .NEUTRAL | .CALLBACK | .LEFT_MESSAGE | .FOLLOW_UP_SET =>
      SCORING_CONFIG.OUTCOME_NEUTRAL
  | .NEGATIVE => SCORING_CONFIG.OUTCOME_NEGATIVE
  | .NOT_INTERESTED => SCORING_CONFIG.OUTCOME_NOT_INTERESTED
  | .NO_ANSWER => SCORING_CONFIG.OUTCOME_NO_ANSWER

/-- `ScoringService.calculateActivityScore`: sum the type points of the
10 most recent activities, capped at 40. -/
def calculateActivityScore (activities : List Activity) : Int :=
  if activities.isEmpty then 0
  else
    let recentActivities := activities.take 10
    let score := recentActivities.foldl (fun s a => s + getActivityTypeScore a.type) 0
    min 40 score

/-- `ScoringService.calculateOutcomeScore`: walk the 5 most recent
activities, add the outcome modifier of those that have an outcome,
cap at 30. -/
def calculateOutcomeScore (activities : List Activity) : Int :=
  if activities.isEmpty then 0
  else
    let recentActivities := activities.take 5
    let score := recentActivities.foldl
      (fun s a => match a.outcome with
        | some o => s + getOutcomeScore o
        | none => s) 0
    min 30 score

/-- The decay loop of `ScoringService.calculateTimeDecay`:
`decay = 0; for i: if days >= DAYS[i] then decay = AMOUNT[i]`. -/
def timeDecayLoop (daysSinceActivity : Int) : Int :=
  (SCORING_CONFIG.TIME_DECAY_DAYS.zip SCORING_CONFIG.TIME_DECAY_AMOUNT).foldl
    (fun decay ta => if daysSinceActivity ≥ ta.1 then ta.2 else decay) 0

/-- Days since a lead's most recent activity (or its `updatedAt` when it
has none): `Math.floor((now - lastActivity) / 86400000)`. -/
def daysSinceLast (activities : List Activity) (lastUpdated now : Int) : Int :=
  let lastActivity := match activities with
    | a :: _ => a.timestamp
    | [] => lastUpdated
  Int.fdiv (now - lastActivity) (1000 * 60 * 60 * 24)

/-- `ScoringService.calculateTimeDecay`. -/
def calculateTimeDecay (activities : List Activity) (lastUpdated now : Int) : Int :=
  if ¬ SCORING_CONFIG.TIME_DECAY_ENABLED then 0
  else timeDecayLoop (daysSinceLast activities lastUpdated now)

/-- The `LeadScoreBreakdown` returned by the Scoring Engine. -/
structure LeadScoreBreakdown where
  currentScore : Int
  previousScore : Int
  change : Int
  intentScore : Int
  statusScore : Int
  activityScore : Int
  outcomeScore : Int
  timeDecay : Int
deriving Repr, DecidableEq

/-- `ScoringService.calculateLeadScore`: the pure computation, applied to
the lead row and its activities ordered newest-first, at time `now`. -/
def calculateLeadScore (lead : LeadRec) (activities : List Activity) (now : Int) :
    LeadScoreBreakdown :=
  let previousScore := lead.score
  let intentScore := getIntentScore lead.intentLevel
  let statusScore := getStatusScore lead.status
  let activityScore := calculateActivityScore activities
  let outcomeScore := calculateOutcomeScore activities
  let timeDecay := calculateTimeDecay activities lead.updatedAt now
  let newScore := SCORING_CONFIG.BASE_SCORE + intentScore + statusScore +
    activityScore + outcomeScore - timeDecay
  let newScore := max 0 (min SCORING_CONFIG.MAX_SCORE newScore)
  { currentScore := newScore
    previousScore := previousScore
    change := newScore - previousScore
    intentScore := intentScore
    statusScore := statusScore
    activityScore := activityScore
    outcomeScore := outcomeScore
    timeDecay := timeDecay }

/-- `ScoringService.updateLeadScore`: compute the breakdown and persist
`currentScore` on the lead row. -/
def updateLeadScore (lead : LeadRec) (activities : List Activity) (now : Int) :
    LeadRec × LeadScoreBreakdown :=
  let breakdown := calculateLeadScore lead activities now
  ({ lead with score := breakdown.currentScore }, breakdown)

/-! ## Status Transition Engine: activity-derived lead status
(`ActivityService.autoUpdateLeadStatus`) -/

/-- The `newStatus` decision switch of
`ActivityService.autoUpdateLeadStatus`: given the lead's current status,
the logged activity's type and outcome, the status the guard proposes
(`none` when no guard fires). -/
def autoUpdateLeadStatusNewStatus (status : LeadStatus) (activityType : ActivityType)
    (outcome : Option ActivityOutcome) : Option LeadStatus :=
  match activityType with
  | .CALL_OUTBOUND | .CALL_INBOUND =>
      if status = .NEW then some .CONTACTED else none
  | .MEETING_SCHEDULED | .APPOINTMENT_SET =>
      if status = .NEW ∨ status = .CONTACTED then some .ENGAGED else none
  | .MEETING_COMPLETED =>
      if outcome = some .INTERESTED ∨ outcome = some .POSITIVE then some .QUALIFIED
      else if outcome = some .NOT_INTERESTED then some .NOT_INTERESTED
      else none
  | .PROPOSAL_SENT =>
      if status = .QUALIFIED ∨ status = .ENGAGED then some .PROPOSAL else none
  | .APPLICATION_SENT =>
      if status = .PROPOSAL ∨ status = .QUALIFIED then some .APPLICATION else none
  | _ => none

/-- The status actually stored after `autoUpdateLeadStatus`: the proposed
status is applied only when it is present and differs from the current
one (`if (newStatus && newStatus !== lead.status)`). -/
def autoUpdateLeadStatusResult (status : LeadStatus) (activityType : ActivityType)
    (outcome : Option ActivityOutcome) : LeadStatus :=
  match autoUpdateLeadStatusNewStatus status activityType outcome with
  | some newStatus => if newStatus ≠ status then newStatus else status
  | none => status

/-- Position of a status along the happy-path pipeline
`NEW → CONTACTED → ENGAGED → QUALIFIED → PROPOSAL → APPLICATION →
UNDERWRITING → PLACED`; the terminal side-exit statuses are not pipeline
stages and sit at 0. A transition between pipeline stages is a
regression when it strictly lowers this rank. -/
def pipelineRank : LeadStatus → Nat
  | .NEW => 0
  | .CONTACTED => 1
  | .ENGAGED => 2
  | .QUALIFIED => 3
  | .PROPOSAL => 4
  | .APPLICATION => 5
  | .UNDERWRITING => 6
  | .PLACED => 7
  | .NOT_PLACED | .NOT_INTERESTED | .UNRESPONSIVE | .LOST => 0

/-! ## Engine effect traces

The claims about cross-service side effects (score recomputes, events
handed to the Trigger Dispatcher, lead-status writes) are settled over
traces of the following effects, recorded in program order. -/

/-- The trigger kinds of `AutomationTrigger`. -/
inductive TriggerKind
  | lead_created | lead_status_changed | activity_logged | policy_created
  | policy_issued | commission_earned | score_changed | custom
deriving Repr, DecidableEq, Fintype

/-- One observable engine side effect:
* `scoreRecompute` — a call to `ScoringService.updateLeadScore`;
* `emit k` — an event of kind `k` handed to the Trigger Dispatcher
  (a call to the corresponding `AutomationService.handle…` method);
* `setLeadStatus s` — a store write of the lead's `status` field;
* `logActivity t o` — an Activity row created for the lead;
* `setIssueDate` — a store write of the policy's `issueDate`. -/
inductive EngineEffect
  | scoreRecompute
  | emit (k : TriggerKind)
  | setLeadStatus (s : LeadStatus)
  | logActivity (t : ActivityType) (o : Option ActivityOutcome)
  | setIssueDate
deriving Repr, DecidableEq

/-- The event kinds a trace emits, in order. -/
def emittedKinds (effects : List EngineEffect) : List TriggerKind :=
  effects.filterMap fun e => match e with
    | .emit k => some k
    | _ => none

/-- `ActivityService.logActivity`, as its effect trace on a lead currently
in status `leadStatus`: create the Activity row, recompute the score,
hand `activity.logged` to the dispatcher
(`AutomationService.handleActivityLogged`), then run
`autoUpdateLeadStatus`, which stores a new status and hands
`lead.status_changed` to the dispatcher only when a guard fires with a
different status. Returns the trace and the lead's resulting status. -/
def logActivityEffects (leadStatus : LeadStatus) (t : ActivityType)
    (o : Option ActivityOutcome) : List EngineEffect × LeadStatus :=
  let base : List EngineEffect :=
    [.logActivity t o, .scoreRecompute, .emit .activity_logged]
  match autoUpdateLeadStatusNewStatus leadStatus t o with
  | some newStatus =>
      if newStatus ≠ leadStatus then
        (base ++ [.setLeadStatus newStatus, .emit .lead_status_changed], newStatus)
      else (base, leadStatus)
  | none => (base, leadStatus)

/-- The slice of `LeadService.updateLead`'s params relevant to status and
scoring. -/
structure UpdateLeadParams where
  status : Option LeadStatus
  intentLevel : Option IntentLevel
deriving Repr, DecidableEq

/-- `LeadService.updateLead`, as its effect trace: apply the field
updates, recompute the score when `status` or `intentLevel` was supplied,
and hand `lead.status_changed` to the dispatcher
(`AutomationService.handleLeadStatusChanged`) when a supplied status
differs from the previous one. -/
def updateLeadEffects (lead : LeadRec) (params : UpdateLeadParams) : List EngineEffect :=
  let previousStatus := lead.status
  (match params.status with
    | some s => [.setLeadStatus s]
    | none => []) ++
  (if params.status.isSome ∨ params.intentLevel.isSome then
    [.scoreRecompute]
  else []) ++
  (match params.status with
    | some s => if s ≠ previousStatus then [.emit .lead_status_changed] else []
    | none => [])

/-! ## Commission Calculator (CommissionService) -/

/-- `DEFAULT_COMMISSION_RATES`: first-year commission rate by product
type. -/
def DEFAULT_COMMISSION_RATES : ProductType → ℚ
  | .TERM_LIFE => 0.90
  | .WHOLE_LIFE => 0.55
  | .UNIVERSAL_LIFE => 0.55
  | .FINAL_EXPENSE => 0.60
  | .IUL => 0.50
  | .HEALTH_ACA => 0.04
  | .HEALTH_SHORT_TERM => 0.20
  | .MEDICARE_SUPPLEMENT => 0.25
  | .MEDICARE_ADVANTAGE => 0.30
  | .DENTAL => 0.20
  | .VISION => 0.15
  | .DISABILITY_INCOME => 0.40
  | .CRITICAL_ILLNESS => 0.35
  | .LONG_TERM_CARE => 0.35
  | .ANNUITY => 0.04
  | .OTHER => 0.25

/-- `RENEWAL_COMMISSION_RATES`: the partial renewal-rate table; product
types absent from the source record are `none`. -/
def RENEWAL_COMMISSION_RATES : ProductType → Option ℚ
  | .TERM_LIFE => some 0.0
  | .WHOLE_LIFE => some 0.035
  | .UNIVERSAL_LIFE => some 0.035
  | .FINAL_EXPENSE => some 0.03
  | .IUL => some 0.025
  | .HEALTH_ACA => some 0.04
  | .MEDICARE_SUPPLEMENT => some 0.025
  | .MEDICARE_ADVANTAGE => some 0.0
  | .ANNUITY => some 0.01
  | _ => none

/-- The `CommissionResult` of `CommissionService.calculateCommission`. -/
structure CommissionResult where
  commissionAmount : ℚ
  commissionRate : ℚ
  type : CommissionType
deriving Repr, DecidableEq

/-- `CommissionService.calculateCommission`. With no custom rate, a
`RENEWAL` commission looks up `RENEWAL_COMMISSION_RATES[pt] || 0`
(a missing entry — and likewise a stored 0 — yields 0, i.e. `getD 0`);
every other type uses `DEFAULT_COMMISSION_RATES[pt]`. The source's
trailing `|| 0` guards (`premium * (commissionRate || 0)`,
`commissionRate: commissionRate || 0`) are identities on defined
numbers, since `0 || 0` is `0`. -/
def calculateCommission (premium : ℚ) (productType : ProductType)
    (customRate : Option ℚ) (type : CommissionType) : CommissionResult :=
  let commissionRate : ℚ :=
    match customRate with
    | some r => r
    | none =>
      match type with
      | .RENEWAL => (RENEWAL_COMMISSION_RATES productType).getD 0
      | _ => DEFAULT_COMMISSION_RATES productType
  { commissionAmount := premium * commissionRate
    commissionRate := commissionRate
    type := type }

/-- A Commission row as created by `CommissionService.createCommission`
(`policyId`/`agentId`/`scheduledDate` bookkeeping omitted: no claim
mentions them). -/
structure Commission where
  type : CommissionType
  amount : ℚ
  status : CommissionStatus
deriving Repr, DecidableEq

/-! ## Policy Service (PolicyService.updatePolicy and its handlers) -/

/-- The slice of a Policy row the update logic reads and writes
(pass-through text fields — `carrier`, `policyNumber`, `term`, `mode`,
`effectiveDate` — feed no modelled logic and are omitted). -/
structure Policy where
  status : PolicyStatus
  productType : ProductType
  faceAmount : ℚ
  premium : ℚ
  commissionRate : ℚ
  commissionAmount : ℚ
  issueDate : Option Int
deriving Repr, DecidableEq

/-- `UpdatePolicyParams`: each field is `some v` when the caller supplied
it, `none` when it was left `undefined`. -/
structure UpdatePolicyParams where
  productType : Option ProductType
  faceAmount : Option ℚ
  premium : Option ℚ
  status : Option PolicyStatus
  issueDate : Option Int
deriving Repr, DecidableEq

/-- JavaScript truthiness of an optional number:
`undefined` and `0` are falsy. Used for the source's
`if (params.premium && …)` guard. -/
def jsTruthyNum (x : Option ℚ) : Bool :=
  match x with
  | some q => q ≠ 0
  | none => false

/-- The `prisma.policy.update` data object of `updatePolicy`: supplied
fields overwrite, absent fields are untouched. -/
def applyUpdateParams (p : Policy) (params : UpdatePolicyParams) : Policy :=
  { p with
    productType := params.productType.getD p.productType
    faceAmount := params.faceAmount.getD p.faceAmount
    premium := params.premium.getD p.premium
    status := params.status.getD p.status
    issueDate := match params.issueDate with
      | some d => some d
      | none => p.issueDate }

/-- `CommissionService.handlePolicyIssued`: calculate the first-year
commission from the (re-read) policy's premium and product type with no
custom rate, create one `FIRST_YEAR` commission row in `PENDING` status,
and write the resulting amount/rate back onto the policy. -/
def commissionHandlePolicyIssued (p : Policy) : Policy × Commission :=
  let result := calculateCommission p.premium p.productType none .FIRST_YEAR
  let commission : Commission :=
    { type := result.type, amount := result.commissionAmount, status := .PENDING }
  ({ p with
      commissionAmount := result.commissionAmount
      commissionRate := result.commissionRate },
   commission)

/-- The result of a policy update: the stored policy, the Commission rows
created, and the effect trace touching the policy's lead. -/
structure PolicyUpdateResult where
  policy : Policy
  commissionsCreated : List Commission
  effects : List EngineEffect
deriving Repr, DecidableEq

/-- `PolicyService.handlePolicyIssued` (the private method): set
`issueDate` if absent, create the first-year commission
(`CommissionService.handlePolicyIssued`), set the lead's status to
`PLACED`, log a `NOTE` activity with outcome `SOLD` (which itself
recomputes the score and hands `activity.logged` to the dispatcher), and
hand `policy.issued` to the dispatcher. -/
def policyHandleIssued (p : Policy) (now : Int) : Policy × Commission × List EngineEffect :=
  let p1 := if p.issueDate = none then { p with issueDate := some now } else p
  let issueDateEffects : List EngineEffect :=
    if p.issueDate = none then [.setIssueDate] else []
  let (p2, commission) := commissionHandlePolicyIssued p1
  let (activityEffects, _) := logActivityEffects .PLACED .NOTE (some .SOLD)
  (p2, commission,
    issueDateEffects ++ [.setLeadStatus .PLACED] ++ activityEffects ++
      [.emit .policy_issued])

/-- `PolicyService.handlePolicyInUnderwriting`: set the lead's status to
`UNDERWRITING`, log a `NOTE` activity, recompute the score. -/
def policyHandleInUnderwriting : List EngineEffect :=
  [.setLeadStatus .UNDERWRITING] ++
    (logActivityEffects .UNDERWRITING .NOTE none).1 ++ [.scoreRecompute]

/-- `PolicyService.handlePolicyNotIssued`: set the lead's status to
`LOST` when the policy was `WITHDRAWN` and to `NOT_PLACED` otherwise
(`DECLINED`/`POSTPONED`), log a `NOTE` activity, recompute the score.
Returns the lead status written and the effect trace. -/
def policyHandleNotIssued (status : PolicyStatus) : LeadStatus × List EngineEffect :=
  let leadStatus : LeadStatus := if status = .WITHDRAWN then .LOST else .NOT_PLACED
  (leadStatus,
    [.setLeadStatus leadStatus] ++ (logActivityEffects leadStatus .NOTE none).1 ++
      [.scoreRecompute])

/-- `PolicyService.updatePolicy`: apply the field updates, then run the
dependent branches in source order —
1. premium recalculation, only when a truthy premium was supplied, the
   previous status was `QUOTED`, and no status was supplied;
2. the first `ISSUED` transition (`params.status === ISSUED` and the
   previous status was not `ISSUED`);
3. the first `UNDERWRITING` transition;
4. the `DECLINED`/`POSTPONED`/`WITHDRAWN` handler (no previous-status
   guard in the source). -/
def updatePolicy (p : Policy) (params : UpdatePolicyParams) (now : Int) :
    PolicyUpdateResult :=
  let previousStatus := p.status
  let updatedPolicy := applyUpdateParams p params
  let updatedPolicy :=
    if jsTruthyNum params.premium ∧ previousStatus = .QUOTED ∧ params.status = none then
      let result := calculateCommission (params.premium.getD 0)
        updatedPolicy.productType none .FIRST_YEAR
      { updatedPolicy with
          commissionRate := result.commissionRate
          commissionAmount := result.commissionAmount }
    else updatedPolicy
  let (updatedPolicy, commissionsCreated, issuedEffects) :=
    if params.status = some .ISSUED ∧ previousStatus ≠ .ISSUED then
      let (p', commission, effects) := policyHandleIssued updatedPolicy now
      (p', [commission], effects)
    else (updatedPolicy, [], [])
  let underwritingEffects :=
    if params.status = some .UNDERWRITING ∧ previousStatus ≠ .UNDERWRITING then
      policyHandleInUnderwriting
    else []
  let notIssuedEffects :=
    match params.status with
    | some s =>
        if s = .DECLINED ∨ s = .POSTPONED ∨ s = .WITHDRAWN then
          (policyHandleNotIssued s).2
        else []
    | none => []
  { policy := updatedPolicy
    commissionsCreated := commissionsCreated
    effects := issuedEffects ++ underwritingEffects ++ notIssuedEffects }

/-! ## Trigger Dispatcher (AutomationService) -/

/-- The context handed to campaign evaluation: the event's trigger kind
and the triggering lead's id (the agent filter is applied by the campaign
query, so the campaign lists below are the agent's campaigns). -/
structure TriggerContext where
  trigger : TriggerKind
  leadId : Option Nat
deriving Repr, DecidableEq

/-- A campaign action as parsed from the `actions` JSON blob.
`updateLeadStatus (some s)` holds a valid `LeadStatus` value;
`updateLeadStatus none` models an `update_lead_status` action whose
`status` value is present but not a member of the enum — the prisma
update then rejects it (throws). `unknown` is any unrecognised
`action.type`, which the source's `default` arm logs and skips. -/
inductive ParsedAction
  | sendEmail
  | sendSms
  | createTask
  | logNote
  | webhook
  | updateLeadStatus (status : Option LeadStatus)
  | unknown
deriving Repr, DecidableEq

/-- The parsed `triggerCondition` blob: its optional `trigger` clause
(`none` when the JSON object has no `trigger` key). -/
structure TriggerCondition where
  trigger : Option TriggerKind
deriving Repr, DecidableEq

/-- A Campaign row. `triggerCondition` and `actions` store the
`JSON.parse` result of the corresponding text columns: `none` stands for
a malformed blob (`JSON.parse` throws, or `actions` is not an array). -/
structure Campaign where
  id : Nat
  active : Bool
  triggerCondition : Option TriggerCondition
  actions : Option (List ParsedAction)
  runCount : Nat
  lastRunAt : Option Int
deriving Repr, DecidableEq

/-- The entity store slice the dispatcher's actions touch: the lead rows'
statuses, keyed by id. -/
structure Store where
  leads : List (Nat × LeadStatus)
deriving Repr, DecidableEq

/-- Whether a lead row with this id exists. -/
def Store.hasLead (st : Store) (leadId : Nat) : Bool :=
  st.leads.any fun p => p.1 = leadId

/-- `prisma.lead.update` of the `status` field: rewrite the matching
row(s), leaving the key set unchanged. -/
def Store.writeLeadStatus (st : Store) (leadId : Nat) (s : LeadStatus) : Store :=
  ⟨st.leads.map fun p => if p.1 = leadId then (p.1, s) else p⟩

/-- `AutomationService.evaluateCampaignTrigger`: a malformed
`triggerCondition` blob throws in `JSON.parse`, is caught, logged, and
yields `false` (the campaign is skipped); otherwise the campaign matches
unless its condition has a `trigger` clause different from the event's
(`if (tc.trigger && tc.trigger !== context.trigger) return false;
return true`). -/
def evaluateCampaignTrigger (c : Campaign) (ctx : TriggerContext) : Bool :=
  match c.triggerCondition with
  | none => false
  | some tc =>
    match tc.trigger with
    | some t => if t ≠ ctx.trigger then false else true
    | none => true

/-- `AutomationService.executeAction`: every action kind only logs
(simulated send/task/webhook/note, unknown kinds warn and skip), except
`update_lead_status`, which — when the context carries a lead id —
issues `prisma.lead.update`; that update throws when the status value is
not a valid enum member or the lead row does not exist. -/
def executeAction (a : ParsedAction) (ctx : TriggerContext) (st : Store) :
    Except Unit Store :=
  match a with
  | .updateLeadStatus status? =>
    match ctx.leadId with
    | some leadId =>
      match status? with
      | some s =>
          if st.hasLead leadId then .ok (st.writeLeadStatus leadId s) else .error ()
      | none => .error ()
    | none => .ok st
  | _ => .ok st

/-- The `for (const action of actions)` loop inside `executeCampaign`'s
`try` block: actions run sequentially; the first throw aborts the rest of
the loop. Returns the final store, the actions that executed
(successfully, in order), and whether the whole loop completed. -/
def runActions (actions : List ParsedAction) (ctx : TriggerContext) (st : Store) :
    Store × List ParsedAction × Bool :=
  match actions with
  | [] => (st, [], true)
  | a :: rest =>
    match executeAction a ctx st with
    | .ok st' =>
      let (st'', executed, completed) := runActions rest ctx st'
      (st'', a :: executed, completed)
    | .error _ => (st, [], false)

/-- `AutomationService.executeCampaign`: parse the `actions` blob and run
each action; only when the loop completes does the trailing
`campaign.update` increment `runCount` and set `lastRunAt`. A parse
failure or a throwing action lands in the `catch`, which logs and
returns normally. The trace lists the executed actions tagged with the
campaign's id. -/
def executeCampaign (c : Campaign) (ctx : TriggerContext) (st : Store) (now : Int) :
    Campaign × Store × List (Nat × ParsedAction) :=
  match c.actions with
  | none => (c, st, [])
  | some actions =>
    let (st', executed, completed) := runActions actions ctx st
    if completed then
      ({ c with runCount := c.runCount + 1, lastRunAt := some now }, st',
        executed.map fun a => (c.id, a))
    else (c, st', executed.map fun a => (c.id, a))

/-- `AutomationService.checkCampaigns`: load the agent's campaigns
(inactive ones are filtered out by the `findMany` query, hence left
untouched here), evaluate each trigger, and execute the matching ones in
order, threading the store. -/
def checkCampaigns (ctx : TriggerContext) (campaigns : List Campaign) (st : Store)
    (now : Int) : List Campaign × Store × List (Nat × ParsedAction) :=
  match campaigns with
  | [] => ([], st, [])
  | c :: rest =>
    if c.active ∧ evaluateCampaignTrigger c ctx then
      let (c', st', trace) := executeCampaign c ctx st now
      let (rest', st'', restTrace) := checkCampaigns ctx rest st' now
      (c' :: rest', st'', trace ++ restTrace)
    else
      let (rest', st', restTrace) := checkCampaigns ctx rest st now
      (c :: rest', st', restTrace)

/-- `AutomationService.handleScoreChanged`: return early when the lead
does not exist or when `|newScore − oldScore|` is below the significance
threshold 20; otherwise dispatch a `score.changed` event through
`checkCampaigns`. -/
def handleScoreChanged (leadId : Nat) (oldScore newScore : Int)
    (campaigns : List Campaign) (st : Store) (now : Int) :
    List Campaign × Store × List (Nat × ParsedAction) :=
  if ¬ st.hasLead leadId then (campaigns, st, [])
  else if (newScore - oldScore).natAbs < 20 then (campaigns, st, [])
  else checkCampaigns ⟨.score_changed, some leadId⟩ campaigns st now

/-! ## Dispatcher decomposition

`checkCampaigns` threads the store, but whether a given campaign's
actions succeed depends only on the action payload and on the triggering
lead's existence, which every action preserves. The lemmas below
decompose a dispatch into an independent per-campaign outcome
(`campaignResult`) and per-campaign trace (`campaignTrace`). -/

/-- Whether an action executes without throwing, given that the context's
lead (if any) exists in the store: only an `update_lead_status` action
whose status value is invalid throws on such a store. -/
def actionGood (ctx : TriggerContext) : ParsedAction → Bool
  | .updateLeadStatus none => ctx.leadId.isNone
  | _ => true

/-- What a single campaign's row looks like after a dispatch of `ctx`:
untouched unless it is active and matches, its actions parse, and they
all run to completion — in which case `runCount` is incremented and
`lastRunAt` set. -/
def campaignResult (ctx : TriggerContext) (c : Campaign) (now : Int) : Campaign :=
  if c.active ∧ evaluateCampaignTrigger c ctx then
    match c.actions with
    | some actions =>
        if actions.all (actionGood ctx) then
          { c with runCount := c.runCount + 1, lastRunAt := some now }
        else c
    | none => c
  else c

/-- The actions a single campaign contributes to a dispatch of `ctx`:
none unless it is active, matches, and its actions parse; then the
prefix of its action list before the first throwing action. -/
def campaignTrace (ctx : TriggerContext) (c : Campaign) : List (Nat × ParsedAction) :=
  if c.active ∧ evaluateCampaignTrigger c ctx then
    match c.actions with
    | some actions => (actions.takeWhile (actionGood ctx)).map fun a => (c.id, a)
    | none => []
  else []

theorem writeLeadStatus_hasLead (st : Store) (leadId : Nat) (s : LeadStatus) (l : Nat) :
    (st.writeLeadStatus leadId s).hasLead l = st.hasLead l := by
  rcases st with ⟨leads⟩
  induction leads with
  | nil => rfl
  | cons p rest ih =>
    simp only [Store.writeLeadStatus, Store.hasLead, List.map_cons, List.any_cons] at *
    rw [ih]
    by_cases hp : p.1 = leadId <;> simp [hp]

theorem executeAction_good (a : ParsedAction) (ctx : TriggerContext) (st : Store)
    (h : ∀ leadId, ctx.leadId = some leadId → st.hasLead leadId = true)
    (hg : actionGood ctx a = true) :
    ∃ st', executeAction a ctx st = .ok st' ∧ ∀ l, st'.hasLead l = st.hasLead l := by
  cases a with
  | updateLeadStatus status? =>
    cases hctx : ctx.leadId with
    | none => exact ⟨st, by simp [executeAction, hctx], fun _ => rfl⟩
    | some leadId =>
      cases status? with
      | none => simp [actionGood, hctx] at hg
      | some s =>
        refine ⟨st.writeLeadStatus leadId s, ?_, fun l => writeLeadStatus_hasLead st leadId s l⟩
        simp [executeAction, hctx, h leadId hctx]
  | sendEmail => exact ⟨st, rfl, fun _ => rfl⟩
  | sendSms => exact ⟨st, rfl, fun _ => rfl⟩
  | createTask => exact ⟨st, rfl, fun _ => rfl⟩
  | logNote => exact ⟨st, rfl, fun _ => rfl⟩
  | webhook => exact ⟨st, rfl, fun _ => rfl⟩
  | unknown => exact ⟨st, rfl, fun _ => rfl⟩

theorem executeAction_bad (a : ParsedAction) (ctx : TriggerContext) (st : Store)
    (hg : actionGood ctx a = false) :
    executeAction a ctx st = .error () := by
  cases a with
  | updateLeadStatus status? =>
    cases status? with
    | none =>
      cases hctx : ctx.leadId with
      | none => simp [actionGood, hctx] at hg
      | some leadId => simp [executeAction, hctx]
    | some s => simp [actionGood] at hg
  | sendEmail => simp [actionGood] at hg
  | sendSms => simp [actionGood] at hg
  | createTask => simp [actionGood] at hg
  | logNote => simp [actionGood] at hg
  | webhook => simp [actionGood] at hg
  | unknown => simp [actionGood] at hg

theorem runActions_spec (actions : List ParsedAction) (ctx : TriggerContext) (st : Store)
    (h : ∀ leadId, ctx.leadId = some leadId → st.hasLead leadId = true) :
    (runActions actions ctx st).2.1 = actions.takeWhile (actionGood ctx) ∧
    (runActions actions ctx st).2.2 = actions.all (actionGood ctx) ∧
    ∀ l, (runActions actions ctx st).1.hasLead l = st.hasLead l := by
  induction actions generalizing st with
  | nil => exact ⟨rfl, rfl, fun _ => rfl⟩
  | cons a rest ih =>
    cases hg : actionGood ctx a with
    | true =>
      obtain ⟨st', hok, hpres⟩ := executeAction_good a ctx st h hg
      have h' : ∀ leadId, ctx.leadId = some leadId → st'.hasLead leadId = true :=
        fun leadId hl => (hpres leadId).trans (h leadId hl)
      obtain ⟨h1, h2, h3⟩ := ih st' h'
      refine ⟨?_, ?_, ?_⟩
      · simp [runActions, hok, h1, List.takeWhile_cons, hg]
      · simp [runActions, hok, h2, List.all_cons, hg]
      · intro l
        simp only [runActions, hok]
        exact (h3 l).trans (hpres l)
    | false =>
      have herr := executeAction_bad a ctx st hg
      refine ⟨?_, ?_, fun l => ?_⟩
      · simp [runActions, herr, List.takeWhile_cons, hg]
      · simp [runActions, herr, List.all_cons, hg]
      · simp [runActions, herr]

theorem executeCampaign_spec (c : Campaign) (ctx : TriggerContext) (st : Store) (now : Int)
    (h : ∀ leadId, ctx.leadId = some leadId → st.hasLead leadId = true)
    (hrun : c.active ∧ evaluateCampaignTrigger c ctx) :
    (executeCampaign c ctx st now).1 = campaignResult ctx c now ∧
    (executeCampaign c ctx st now).2.2 = campaignTrace ctx c ∧
    ∀ l, (executeCampaign c ctx st now).2.1.hasLead l = st.hasLead l := by
  cases hact : c.actions with
  | none => simp [executeCampaign, campaignResult, campaignTrace, hact, hrun]
  | some actions =>
    obtain ⟨h1, h2, h3⟩ := runActions_spec actions ctx st h
    cases hall : actions.all (actionGood ctx) with
    | true =>
      refine ⟨?_, ?_, fun l => ?_⟩
      · simp [executeCampaign, campaignResult, hact, hrun, h2, hall]
      · simp [executeCampaign, campaignTrace, hact, hrun, h1, h2, hall]
      · simp only [executeCampaign, hact, h2, hall, if_true]
        exact h3 l
    | false =>
      refine ⟨?_, ?_, fun l => ?_⟩
      · simp [executeCampaign, campaignResult, hact, hrun, h2, hall]
      · simp [executeCampaign, campaignTrace, hact, hrun, h1, h2, hall]
      · simp only [executeCampaign, hact, h2, hall, if_false, Bool.false_eq_true]
        exact h3 l

theorem checkCampaigns_spec (ctx : TriggerContext) (campaigns : List Campaign)
    (st : Store) (now : Int)
    (h : ∀ leadId, ctx.leadId = some leadId → st.hasLead leadId = true) :
    (checkCampaigns ctx campaigns st now).1 =
      campaigns.map (fun c => campaignResult ctx c now) ∧
    (checkCampaigns ctx campaigns st now).2.2 =
      campaigns.flatMap (campaignTrace ctx) ∧
    ∀ l, (checkCampaigns ctx campaigns st now).2.1.hasLead l = st.hasLead l := by
  induction campaigns generalizing st with
  | nil => exact ⟨rfl, rfl, fun _ => rfl⟩
  | cons c rest ih =>
    by_cases hrun : c.active ∧ evaluateCampaignTrigger c ctx
    · obtain ⟨e1, e2, e3⟩ := executeCampaign_spec c ctx st now h hrun
      have h' : ∀ leadId, ctx.leadId = some leadId →
          ((executeCampaign c ctx st now).2.1).hasLead leadId = true :=
        fun leadId hl => (e3 leadId).trans (h leadId hl)
      obtain ⟨h1, h2, h3⟩ := ih (executeCampaign c ctx st now).2.1 h'
      refine ⟨?_, ?_, fun l => ?_⟩
      · simp [checkCampaigns, hrun, e1, h1]
      · simp [checkCampaigns, hrun, e2, h2]
      · simp only [checkCampaigns, hrun, if_true]
        exact (h3 l).trans (e3 l)
    · obtain ⟨h1, h2, h3⟩ := ih st h
      have hres : campaignResult ctx c now = c := by
        simp [campaignResult, hrun]
      have htr : campaignTrace ctx c = [] := by
        simp [campaignTrace, hrun]
      refine ⟨?_, ?_, fun l => ?_⟩
      · simp [checkCampaigns, hrun, h1, hres]
      · simp [checkCampaigns, hrun, h2, htr]
      · simp only [checkCampaigns, hrun, if_false]
        exact h3 l

/-- `takeWhile` keeps a list all of whose elements satisfy the
predicate. -/
theorem takeWhile_eq_of_all {α : Type} (p : α → Bool) (l : List α)
    (h : ∀ a ∈ l, p a = true) : l.takeWhile p = l := by
  induction l with
  | nil => rfl
  | cons a rest ih =>
    rw [List.takeWhile_cons, h a (List.mem_cons_self a rest)]
    simp [ih fun b hb => h b (List.mem_cons_of_mem a hb)]

/-! ## Claim C1: the score clamp invariant -/

/-- C1: for every lead and every activity history, the score computed by
`calculateLeadScore` — the component sum
`intentScore + statusScore + activityScore + outcomeScore − timeDecay`
clamped at the end — is an integer in [0, 100], even when the component
sum falls outside that range, and `updateLeadScore` persists exactly that
clamped value. -/
theorem calculateLeadScore_clamped (lead : LeadRec) (activities : List Activity)
    (now : Int) :
    0 ≤ (calculateLeadScore lead activities now).currentScore ∧
    (calculateLeadScore lead activities now).currentScore ≤ 100 ∧
    (updateLeadScore lead activities now).1.score =
      (calculateLeadScore lead activities now).currentScore := by
  have hrw : (calculateLeadScore lead activities now).currentScore =
      max 0 (min 100 (0 + getIntentScore lead.intentLevel + getStatusScore lead.status +
        calculateActivityScore activities + calculateOutcomeScore activities -
        calculateTimeDecay activities lead.updatedAt now)) := rfl
  refine ⟨?_, ?_, rfl⟩
  · rw [hrw]; exact le_max_left 0 _
  · rw [hrw]; exact max_le (by norm_num) (min_le_left _ _)

/-! ## Claim C7: the outcome-score window -/

/-- Sum of outcome modifiers of a list of activities, restricted to those
that have an outcome. -/
def outcomeModifierSum (activities : List Activity) : Int :=
  (((activities.filterMap fun a => a.outcome).map getOutcomeScore)).sum

theorem outcomeScore_foldl_eq (l : List Activity) (i : Int) :
    l.foldl (fun s a => match a.outcome with
      | some o => s + getOutcomeScore o
      | none => s) i = i + outcomeModifierSum l := by
  induction l generalizing i with
  | nil => simp [outcomeModifierSum]
  | cons a rest ih =>
    cases h : a.outcome with
    | none => simp [List.foldl_cons, h, ih, outcomeModifierSum, List.filterMap_cons, h]
    | some o =>
      simp only [List.foldl_cons, h, ih, outcomeModifierSum, List.filterMap_cons,
        List.map_cons, List.sum_cons]
      ring

/-- The claim's phrase read literally: the outcome modifiers summed "over
only the 5 most recent activities that have an outcome" — i.e. filter to
the activities that have an outcome, then take the 5 most recent of
those — capped at +30. Stated for comparison with the source's
`calculateOutcomeScore`. -/
def specOutcomeScoreFiveMostRecentWithOutcome (activities : List Activity) : Int :=
  min 30 (outcomeModifierSum ((activities.filter fun a => a.outcome.isSome).take 5))

/-- C7 counterexample: on six newest-first activities whose five most
recent carry no outcome and whose sixth is a SOLD outcome, the source's
`calculateOutcomeScore` (which windows to the 5 most recent activities
first and only then looks for outcomes) returns 0, while the claim's
"5 most recent activities that have an outcome" yields 30 — so the claim
as stated does not hold of the code. -/
theorem calculateOutcomeScore_window_counterexample :
    calculateOutcomeScore
      [⟨.NOTE, none, 6⟩, ⟨.NOTE, none, 5⟩, ⟨.NOTE, none, 4⟩, ⟨.NOTE, none, 3⟩,
       ⟨.NOTE, none, 2⟩, ⟨.EMAIL_SENT, some .SOLD, 1⟩] = 0 ∧
    specOutcomeScoreFiveMostRecentWithOutcome
      [⟨.NOTE, none, 6⟩, ⟨.NOTE, none, 5⟩, ⟨.NOTE, none, 4⟩, ⟨.NOTE, none, 3⟩,
       ⟨.NOTE, none, 2⟩, ⟨.EMAIL_SENT, some .SOLD, 1⟩] = 30 := by
  decide

/-- C7 amended: `calculateOutcomeScore` equals the sum of per-outcome
modifiers over those of the 5 most recent activities that have an
outcome (window first, then filter), capped at +30 total; in particular
it never exceeds 30. -/
theorem calculateOutcomeScore_amended (activities : List Activity) :
    calculateOutcomeScore activities =
      min 30 (outcomeModifierSum (activities.take 5)) ∧
    calculateOutcomeScore activities ≤ 30 := by
  have key : calculateOutcomeScore activities =
      min 30 (outcomeModifierSum (activities.take 5)) := by
    cases activities with
    | nil => simp [calculateOutcomeScore, outcomeModifierSum]
    | cons a rest =>
      simp only [calculateOutcomeScore, List.isEmpty_cons, Bool.false_eq_true,
        if_false, outcomeScore_foldl_eq, zero_add]
  exact ⟨key, key ▸ min_le_left _ _⟩

/-! ## Claim C8: time decay thresholds and monotonicity -/

/-- C8: the time-decay penalty is a monotonically non-decreasing function
of the day count, takes only the values 0, 5, 10, 20 via the thresholds
≥90 → 20, ≥60 → 10, ≥30 → 5 (non-cumulative, largest applicable
threshold wins), and `calculateTimeDecay` applies it to the days since
the most recent activity (or the lead's last update when it has none). -/
theorem timeDecay_monotone_thresholds (d1 d2 : Int) (h : d1 ≤ d2) :
    timeDecayLoop d1 ≤ timeDecayLoop d2 ∧
    (timeDecayLoop d2 = 0 ∨ timeDecayLoop d2 = 5 ∨
      timeDecayLoop d2 = 10 ∨ timeDecayLoop d2 = 20) ∧
    (90 ≤ d2 → timeDecayLoop d2 = 20) ∧
    (60 ≤ d2 → d2 < 90 → timeDecayLoop d2 = 10) ∧
    (30 ≤ d2 → d2 < 60 → timeDecayLoop d2 = 5) ∧
    (d2 < 30 → timeDecayLoop d2 = 0) ∧
    ∀ (activities : List Activity) (lastUpdated now : Int),
      calculateTimeDecay activities lastUpdated now =
        timeDecayLoop (daysSinceLast activities lastUpdated now) := by
  have hloop : ∀ d : Int, timeDecayLoop d =
      if 90 ≤ d then 20 else if 60 ≤ d then 10 else if 30 ≤ d then 5 else 0 := by
    intro d
    rfl
  refine ⟨?_, ?_, ?_, ?_, ?_, ?_, ?_⟩
  · rw [hloop, hloop]; split_ifs <;> omega
  · rw [hloop]; split_ifs <;> omega
  · intro h90; rw [hloop]; split_ifs <;> omega
  · intro h60 h90; rw [hloop]; split_ifs <;> omega
  · intro h30 h60; rw [hloop]; split_ifs <;> omega
  · intro h30; rw [hloop]; split_ifs <;> omega
  · intro activities lastUpdated now; rfl

/-- C8 witness: at 29 and 31 days the hypotheses hold and decay is
monotone, as in the claim's decay(31) ≥ decay(29) instance. -/
theorem timeDecay_monotone_thresholds_witness :
    (29 : Int) ≤ 31 ∧ timeDecayLoop 29 ≤ timeDecayLoop 31 :=
  ⟨by norm_num, (timeDecay_monotone_thresholds 29 31 (by norm_num)).1⟩

/-! ## Claim C4: activity-derived status guards -/

/-- C4 counterexample: a `MEETING_COMPLETED` activity with outcome
`POSITIVE` carries no source-status guard, so on a lead already in
`UNDERWRITING` it stores `QUALIFIED` — a regression to a strictly
earlier pipeline stage, contradicting the claim that the
activity-derived update "never regresses a lead that has already
advanced past the relevant stage". -/
theorem autoUpdate_regression_counterexample :
    autoUpdateLeadStatusResult .UNDERWRITING .MEETING_COMPLETED (some .POSITIVE) =
      .QUALIFIED ∧
    pipelineRank .QUALIFIED < pipelineRank .UNDERWRITING := by
  decide

/-- C4 amended: every activity-derived guard except `MEETING_COMPLETED`
fires only from its specific source statuses and never regresses the
lead (`MEETING_COMPLETED` keys on outcome alone and can regress, see the
counterexample). In particular the call guard fires exactly from `NEW`:
a `CALL_OUTBOUND` on a `NEW` lead stores `CONTACTED`, and on a lead
already `QUALIFIED` leaves the status unchanged. -/
theorem autoUpdate_guard_no_regress (s : LeadStatus) (t : ActivityType)
    (o : Option ActivityOutcome) :
    (t ≠ .MEETING_COMPLETED →
      pipelineRank s ≤ pipelineRank (autoUpdateLeadStatusResult s t o)) ∧
    (autoUpdateLeadStatusNewStatus s .CALL_OUTBOUND o =
      if s = .NEW then some .CONTACTED else none) ∧
    autoUpdateLeadStatusResult .NEW .CALL_OUTBOUND o = .CONTACTED ∧
    autoUpdateLeadStatusResult .QUALIFIED .CALL_OUTBOUND o = .QUALIFIED := by
  revert s t o
  decide

/-- C4 witness: the amended guard theorem applied to a `CALL_OUTBOUND`
activity on a `CONTACTED` lead. -/
theorem autoUpdate_guard_no_regress_witness :
    ActivityType.CALL_OUTBOUND ≠ ActivityType.MEETING_COMPLETED ∧
    pipelineRank .CONTACTED ≤
      pipelineRank (autoUpdateLeadStatusResult .CONTACTED .CALL_OUTBOUND none) :=
  ⟨by decide, (autoUpdate_guard_no_regress .CONTACTED .CALL_OUTBOUND none).1 (by decide)⟩

/-! ## Claim C2: the ISSUED transition creates exactly one commission -/

/-- C2: updating a policy to `ISSUED` from any non-ISSUED status creates
exactly one `FIRST_YEAR` commission whose amount is the policy's premium
times the `FIRST_YEAR` rate-table entry for its product type; an
ISSUED→ISSUED no-op update creates none; and no update creates a
commission except through the ISSUED transition. -/
theorem issued_transition_commission (p : Policy) (params : UpdatePolicyParams)
    (now : Int) :
    (p.status ≠ .ISSUED → params.status = some .ISSUED →
      (updatePolicy p params now).commissionsCreated =
        [{ type := .FIRST_YEAR,
           amount := (updatePolicy p params now).policy.premium *
             DEFAULT_COMMISSION_RATES (updatePolicy p params now).policy.productType,
           status := .PENDING }]) ∧
    (p.status = .ISSUED → params.status = some .ISSUED →
      (updatePolicy p params now).commissionsCreated = []) ∧
    ((updatePolicy p params now).commissionsCreated ≠ [] →
      params.status = some .ISSUED ∧ p.status ≠ .ISSUED) := by
  refine ⟨?_, ?_, ?_⟩
  · intro hp hs
    simp [updatePolicy, hs, hp, policyHandleIssued, commissionHandlePolicyIssued,
      calculateCommission]
  · intro hp hs
    simp [updatePolicy, hs, hp]
  · intro hne
    by_cases hcond : params.status = some .ISSUED ∧ p.status ≠ .ISSUED
    · exact hcond
    · exact absurd (by simp [updatePolicy, hcond]) hne

/-- C2 witness: issuing an `APPROVED` TERM_LIFE policy with premium 1200
creates exactly the pending first-year commission of 1200 × 0.90 = 1080. -/
theorem issued_transition_commission_witness :
    PolicyStatus.APPROVED ≠ PolicyStatus.ISSUED ∧
    (updatePolicy ⟨.APPROVED, .TERM_LIFE, 100000, 1200, 0, 0, none⟩
        ⟨none, none, none, some .ISSUED, none⟩ 7).commissionsCreated =
      [⟨.FIRST_YEAR, 1080, .PENDING⟩] := by
  constructor
  · decide
  · have h := (issued_transition_commission ⟨.APPROVED, .TERM_LIFE, 100000, 1200, 0, 0, none⟩
      ⟨none, none, none, some .ISSUED, none⟩ 7).1 (by decide) rfl
    have hne := eq_false
      (show PolicyStatus.APPROVED = PolicyStatus.ISSUED -> False from by decide)
    rw [h]
    norm_num [updatePolicy, applyUpdateParams, policyHandleIssued,
      commissionHandlePolicyIssued, calculateCommission, DEFAULT_COMMISSION_RATES,
      jsTruthyNum, hne]

/-! ## Claim C6: when `commissionAmount = premium × commissionRate` is
recomputed -/

/-- C6 counterexample: the claim says the pair is "recomputed whenever
the premium changes before issuance", but the source's recalculation
guard requires `previousStatus === QUOTED`. On an `APPLIED` (pre-issue)
policy with stored 100 × 0.9 = 90, changing the premium to 200 leaves
`commissionAmount` at 90, which no longer equals
`premium * commissionRate` = 180. -/
theorem premium_change_no_recompute_counterexample :
    (updatePolicy ⟨.APPLIED, .TERM_LIFE, 100000, 100, 0.9, 90, none⟩
        ⟨none, none, some 200, none, none⟩ 0).policy.premium = 200 ∧
    (updatePolicy ⟨.APPLIED, .TERM_LIFE, 100000, 100, 0.9, 90, none⟩
        ⟨none, none, some 200, none, none⟩ 0).policy.commissionAmount = 90 ∧
    (updatePolicy ⟨.APPLIED, .TERM_LIFE, 100000, 100, 0.9, 90, none⟩
        ⟨none, none, some 200, none, none⟩ 0).policy.commissionAmount ≠
      (updatePolicy ⟨.APPLIED, .TERM_LIFE, 100000, 100, 0.9, 90, none⟩
          ⟨none, none, some 200, none, none⟩ 0).policy.premium *
        (updatePolicy ⟨.APPLIED, .TERM_LIFE, 100000, 100, 0.9, 90, none⟩
            ⟨none, none, some 200, none, none⟩ 0).policy.commissionRate := by
  have hN := eq_false
    (show (none : Option PolicyStatus) = some PolicyStatus.ISSUED -> False from by decide)
  have hQ := eq_false
    (show PolicyStatus.APPLIED = PolicyStatus.QUOTED -> False from by decide)
  refine ⟨?_, ?_, ?_⟩ <;>
    norm_num [updatePolicy, applyUpdateParams, jsTruthyNum, hN, hQ]

/-- C6 amended: `commissionAmount = premium × commissionRate` holds as of
the last computation, but the pair is recomputed from a premium change
only while the policy is still `QUOTED` (and no status is supplied in
the same update); it is also recomputed on the first ISSUED transition;
in every other update — including premium changes in other pre-issuance
statuses and after issuance — both fields are frozen. -/
theorem commission_recompute_conditions (p : Policy) (params : UpdatePolicyParams)
    (now : Int) :
    ((jsTruthyNum params.premium = true ∧ p.status = .QUOTED ∧ params.status = none) →
      (updatePolicy p params now).policy.commissionRate =
        DEFAULT_COMMISSION_RATES (updatePolicy p params now).policy.productType ∧
      (updatePolicy p params now).policy.commissionAmount =
        (updatePolicy p params now).policy.premium *
          (updatePolicy p params now).policy.commissionRate) ∧
    ((params.status = some .ISSUED ∧ p.status ≠ .ISSUED) →
      (updatePolicy p params now).policy.commissionRate =
        DEFAULT_COMMISSION_RATES (updatePolicy p params now).policy.productType ∧
      (updatePolicy p params now).policy.commissionAmount =
        (updatePolicy p params now).policy.premium *
          (updatePolicy p params now).policy.commissionRate) ∧
    (¬ (jsTruthyNum params.premium = true ∧ p.status = .QUOTED ∧ params.status = none) →
      ¬ (params.status = some .ISSUED ∧ p.status ≠ .ISSUED) →
      (updatePolicy p params now).policy.commissionAmount = p.commissionAmount ∧
      (updatePolicy p params now).policy.commissionRate = p.commissionRate) := by
  refine ⟨?_, ?_, ?_⟩
  · rintro ⟨h1, h2, h3⟩
    cases hq : params.premium with
    | none => rw [hq] at h1; simp [jsTruthyNum] at h1
    | some q =>
      rw [hq] at h1
      simp only [jsTruthyNum, decide_eq_true_eq] at h1
      simp [updatePolicy, applyUpdateParams, calculateCommission, h1, h2, h3, hq,
        jsTruthyNum]
  · rintro ⟨h1, h2⟩
    simp [updatePolicy, h1, h2, policyHandleIssued, commissionHandlePolicyIssued,
      calculateCommission]
  · intro h1 h2
    simp [updatePolicy, applyUpdateParams, h1, h2]

/-- C6 witness: on a `QUOTED` TERM_LIFE policy, changing the premium to
200 recomputes the pair, restoring `commissionAmount = premium × rate`. -/
theorem commission_recompute_conditions_witness :
    (jsTruthyNum (some 200) = true ∧ PolicyStatus.QUOTED = PolicyStatus.QUOTED ∧
      (none : Option PolicyStatus) = none) ∧
    (updatePolicy ⟨.QUOTED, .TERM_LIFE, 100000, 100, 0, 0, none⟩
        ⟨none, none, some 200, none, none⟩ 0).policy.commissionAmount =
      (updatePolicy ⟨.QUOTED, .TERM_LIFE, 100000, 100, 0, 0, none⟩
          ⟨none, none, some 200, none, none⟩ 0).policy.premium *
        (updatePolicy ⟨.QUOTED, .TERM_LIFE, 100000, 100, 0, 0, none⟩
            ⟨none, none, some 200, none, none⟩ 0).policy.commissionRate :=
  ⟨⟨by decide, rfl, rfl⟩,
   ((commission_recompute_conditions ⟨.QUOTED, .TERM_LIFE, 100000, 100, 0, 0, none⟩
       ⟨none, none, some 200, none, none⟩ 0).1 ⟨by decide, rfl, rfl⟩).2⟩

/-! ## Claim C5: status changes, score recomputes, and emitted events -/

/-- C5 counterexample: `handlePolicyNotIssued` for a `DECLINED` policy
writes the lead's status to `NOT_PLACED` (a status change for any lead
not already there, e.g. one in `UNDERWRITING`), yet the only event kind
it hands to the dispatcher is `activity.logged` (from the note activity
it logs) — it emits no `lead.status_changed`, `policy.issued`, or
`policy.created` event, contradicting the claim. -/
theorem policyNotIssued_events_counterexample :
    (policyHandleNotIssued .DECLINED).1 = .NOT_PLACED ∧
    EngineEffect.setLeadStatus .NOT_PLACED ∈ (policyHandleNotIssued .DECLINED).2 ∧
    EngineEffect.scoreRecompute ∈ (policyHandleNotIssued .DECLINED).2 ∧
    emittedKinds (policyHandleNotIssued .DECLINED).2 = [.activity_logged] ∧
    TriggerKind.lead_status_changed ∉ emittedKinds (policyHandleNotIssued .DECLINED).2 ∧
    TriggerKind.policy_issued ∉ emittedKinds (policyHandleNotIssued .DECLINED).2 ∧
    TriggerKind.policy_created ∉ emittedKinds (policyHandleNotIssued .DECLINED).2 := by
  decide

/-- C5 amended: the `DECLINED`/`POSTPONED`/`WITHDRAWN` handler does set
the lead's status (`LOST` for WITHDRAWN, `NOT_PLACED` otherwise) and
trigger a score recompute, but the only event kind it emits is
`activity.logged` from the note activity — not `lead.status_changed` or
a policy event; explicit lead status edits through
`LeadService.updateLead` recompute the score whenever a status is
supplied and emit `lead.status_changed` exactly when the supplied
status differs from the previous one (an edit supplying the unchanged
status recomputes but emits nothing). -/
theorem statusChange_recompute_events (s : PolicyStatus) (lead : LeadRec)
    (params : UpdateLeadParams) :
    ((s = .DECLINED ∨ s = .POSTPONED ∨ s = .WITHDRAWN) →
      (policyHandleNotIssued s).1 = (if s = .WITHDRAWN then .LOST else .NOT_PLACED) ∧
      EngineEffect.setLeadStatus (policyHandleNotIssued s).1 ∈
        (policyHandleNotIssued s).2 ∧
      EngineEffect.scoreRecompute ∈ (policyHandleNotIssued s).2 ∧
      emittedKinds (policyHandleNotIssued s).2 = [.activity_logged]) ∧
    (∀ ns, params.status = some ns →
      EngineEffect.scoreRecompute ∈ updateLeadEffects lead params ∧
      (EngineEffect.emit .lead_status_changed ∈ updateLeadEffects lead params ↔
        ns ≠ lead.status)) := by
  constructor
  · rintro (h | h | h) <;> subst h <;> exact (by decide)
  · intro ns hns
    by_cases hne : ns = lead.status <;> simp [updateLeadEffects, hns, hne]

/-- C5 witness: the amended theorem applied to a `DECLINED` policy, to an
explicit status edit `NEW → CONTACTED` (which emits), and to a no-change
edit `CONTACTED → CONTACTED` (which emits nothing). -/
theorem statusChange_recompute_events_witness :
    (PolicyStatus.DECLINED = PolicyStatus.DECLINED ∨
      PolicyStatus.DECLINED = PolicyStatus.POSTPONED ∨
      PolicyStatus.DECLINED = PolicyStatus.WITHDRAWN) ∧
    emittedKinds (policyHandleNotIssued .DECLINED).2 = [.activity_logged] ∧
    EngineEffect.emit .lead_status_changed ∈
      updateLeadEffects ⟨.NEW, .WARM, 0, 0⟩ ⟨some .CONTACTED, none⟩ ∧
    EngineEffect.emit .lead_status_changed ∉
      updateLeadEffects ⟨.CONTACTED, .WARM, 0, 0⟩ ⟨some .CONTACTED, none⟩ ∧
    EngineEffect.scoreRecompute ∈
      updateLeadEffects ⟨.CONTACTED, .WARM, 0, 0⟩ ⟨some .CONTACTED, none⟩ :=
  ⟨Or.inl rfl,
   ((statusChange_recompute_events .DECLINED ⟨.NEW, .WARM, 0, 0⟩
       ⟨some .CONTACTED, none⟩).1 (Or.inl rfl)).2.2.2,
   ((statusChange_recompute_events .DECLINED ⟨.NEW, .WARM, 0, 0⟩
       ⟨some .CONTACTED, none⟩).2 .CONTACTED rfl).2.mpr (by decide),
   fun hmem =>
     ((statusChange_recompute_events .DECLINED ⟨.CONTACTED, .WARM, 0, 0⟩
         ⟨some .CONTACTED, none⟩).2 .CONTACTED rfl).2.mp hmem rfl,
   ((statusChange_recompute_events .DECLINED ⟨.CONTACTED, .WARM, 0, 0⟩
       ⟨some .CONTACTED, none⟩).2 .CONTACTED rfl).1⟩

/-! ## Claim C3: the score-change significance filter and exactly-once
execution -/

/-- C3: a `score.changed` event with `|newScore − oldScore| < 20` is
dropped before any campaign matching — no campaign is touched and no
action executes; with `|delta| ≥ 20` (and the lead present) each
campaign's row becomes `campaignResult` and the trace decomposes
per-campaign, and every active campaign whose configured trigger kind is
`score.changed` (with parseable, well-formed actions) has each of its
configured actions executed exactly once, in order, its `runCount`
incremented by exactly 1, and `lastRunAt` set. -/
theorem scoreChanged_filter_and_execution (leadId : Nat) (oldScore newScore : Int)
    (campaigns : List Campaign) (st : Store) (now : Int) :
    ((newScore - oldScore).natAbs < 20 →
      handleScoreChanged leadId oldScore newScore campaigns st now =
        (campaigns, st, [])) ∧
    (20 ≤ (newScore - oldScore).natAbs → st.hasLead leadId = true →
      (handleScoreChanged leadId oldScore newScore campaigns st now).1 =
        campaigns.map (fun c => campaignResult ⟨.score_changed, some leadId⟩ c now) ∧
      (handleScoreChanged leadId oldScore newScore campaigns st now).2.2 =
        campaigns.flatMap (campaignTrace ⟨.score_changed, some leadId⟩)) ∧
    (∀ c actions, c.active = true →
      c.triggerCondition = some ⟨some .score_changed⟩ →
      c.actions = some actions →
      (∀ a ∈ actions, actionGood ⟨.score_changed, some leadId⟩ a = true) →
      campaignResult ⟨.score_changed, some leadId⟩ c now =
        { c with runCount := c.runCount + 1, lastRunAt := some now } ∧
      campaignTrace ⟨.score_changed, some leadId⟩ c =
        actions.map fun a => (c.id, a)) := by
  refine ⟨?_, ?_, ?_⟩
  · intro h
    unfold handleScoreChanged
    split
    · rfl
    · rfl
  · intro h hlead
    have hctx : ∀ l, (⟨.score_changed, some leadId⟩ : TriggerContext).leadId = some l →
        st.hasLead l = true := by
      intro l hl
      cases hl
      exact hlead
    obtain ⟨h1, h2, _⟩ :=
      checkCampaigns_spec ⟨.score_changed, some leadId⟩ campaigns st now hctx
    unfold handleScoreChanged
    rw [if_neg (by simp [hlead]), if_neg (by omega)]
    exact ⟨h1, h2⟩
  · intro c actions hact hcond hacts hall
    have heval : evaluateCampaignTrigger c ⟨.score_changed, some leadId⟩ = true := by
      simp [evaluateCampaignTrigger, hcond]
    constructor
    · simp [campaignResult, hact, heval, hacts, List.all_eq_true.mpr hall]
    · simp [campaignTrace, hact, heval, hacts, takeWhile_eq_of_all _ _ hall]

/-- C3 witness: a +50 score jump runs the one matching campaign, bumping
its `runCount` from 2 to 3 and stamping `lastRunAt`. -/
theorem scoreChanged_filter_and_execution_witness :
    20 ≤ ((50 : Int) - 0).natAbs ∧
    Store.hasLead ⟨[(1, .NEW)]⟩ 1 = true ∧
    (handleScoreChanged 1 0 50
        [⟨5, true, some ⟨some .score_changed⟩, some [.sendSms], 2, none⟩]
        ⟨[(1, .NEW)]⟩ 9).1 =
      [⟨5, true, some ⟨some .score_changed⟩, some [.sendSms], 3, some 9⟩] := by
  refine ⟨by decide, by decide, ?_⟩
  have h := (scoreChanged_filter_and_execution 1 0 50
    [⟨5, true, some ⟨some .score_changed⟩, some [.sendSms], 2, none⟩]
    ⟨[(1, .NEW)]⟩ 9).2.1 (by decide) (by decide)
  rw [h.1]
  decide

/-! ## Claim C9: failure isolation in the dispatcher -/

/-- C9 counterexample: in a campaign whose first action is an
`update_lead_status` with an invalid status value (which throws in the
store) followed by a `log_note`, the `log_note` never executes and the
campaign's `runCount` stays 0 — yet the same campaign with the
`log_note` alone executes it and bumps `runCount`. One failing action
therefore does prevent the other actions of its campaign from running,
contradicting the per-action half of the claim. -/
theorem failing_action_not_isolated_counterexample :
    (executeCampaign
        ⟨1, true, some ⟨some .custom⟩, some [.updateLeadStatus none, .logNote], 0, none⟩
        ⟨.custom, some 7⟩ ⟨[(7, .NEW)]⟩ 0).2.2 = [] ∧
    (executeCampaign
        ⟨1, true, some ⟨some .custom⟩, some [.updateLeadStatus none, .logNote], 0, none⟩
        ⟨.custom, some 7⟩ ⟨[(7, .NEW)]⟩ 0).1.runCount = 0 ∧
    (executeCampaign ⟨1, true, some ⟨some .custom⟩, some [.logNote], 0, none⟩
        ⟨.custom, some 7⟩ ⟨[(7, .NEW)]⟩ 0).2.2 = [(1, .logNote)] ∧
    (executeCampaign ⟨1, true, some ⟨some .custom⟩, some [.logNote], 0, none⟩
        ⟨.custom, some 7⟩ ⟨[(7, .NEW)]⟩ 0).1.runCount = 1 := by
  decide

/-- C9 amended: dispatcher failures are isolated per campaign — every
campaign's resulting row and trace contribution are functions of that
campaign alone, so one failing campaign never prevents the others from
running, errors are caught and logged rather than thrown, and a campaign
whose stored trigger condition is malformed JSON is skipped without
aborting the dispatch. Within a single campaign, however, a failing
action aborts that campaign's remaining actions and its `runCount`
increment. -/
theorem dispatch_isolation (ctx : TriggerContext) (campaigns : List Campaign)
    (st : Store) (now : Int)
    (h : ∀ leadId, ctx.leadId = some leadId → st.hasLead leadId = true) :
    (checkCampaigns ctx campaigns st now).1 =
      campaigns.map (fun c => campaignResult ctx c now) ∧
    (checkCampaigns ctx campaigns st now).2.2 =
      campaigns.flatMap (campaignTrace ctx) ∧
    (∀ c, c.triggerCondition = none →
      campaignResult ctx c now = c ∧ campaignTrace ctx c = []) ∧
    (∀ c actions, c.active = true → evaluateCampaignTrigger c ctx = true →
      c.actions = some actions → actions.all (actionGood ctx) = false →
      campaignResult ctx c now = c ∧
      campaignTrace ctx c =
        (actions.takeWhile (actionGood ctx)).map fun a => (c.id, a)) := by
  obtain ⟨h1, h2, _⟩ := checkCampaigns_spec ctx campaigns st now h
  refine ⟨h1, h2, ?_, ?_⟩
  · intro c hc
    constructor
    · simp [campaignResult, evaluateCampaignTrigger, hc]
    · simp [campaignTrace, evaluateCampaignTrigger, hc]
  · intro c actions hact heval hacts hfail
    constructor
    · simp [campaignResult, hact, heval, hacts, hfail]
    · simp [campaignTrace, hact, heval, hacts]

/-- C9 witness: dispatching `custom` over a malformed-condition campaign
followed by a healthy one leaves the malformed campaign untouched while
the healthy one still runs. -/
theorem dispatch_isolation_witness :
    (checkCampaigns ⟨.custom, none⟩
        [⟨1, true, none, some [.logNote], 0, none⟩,
         ⟨2, true, some ⟨none⟩, some [.logNote], 4, none⟩] ⟨[]⟩ 3).1 =
      [⟨1, true, none, some [.logNote], 0, none⟩,
       ⟨2, true, some ⟨none⟩, some [.logNote], 5, some 3⟩] ∧
    campaignResult ⟨.custom, none⟩ ⟨1, true, none, some [.logNote], 0, none⟩ 3 =
      ⟨1, true, none, some [.logNote], 0, none⟩ := by
  have h := dispatch_isolation ⟨.custom, none⟩
    [⟨1, true, none, some [.logNote], 0, none⟩,
     ⟨2, true, some ⟨none⟩, some [.logNote], 4, none⟩] ⟨[]⟩ 3
    (fun _ hl => nomatch hl)
  refine ⟨?_, (h.2.2.1 ⟨1, true, none, some [.logNote], 0, none⟩ rfl).1⟩
  rw [h.1]
  decide

/-! ## Claim C10: a condition without a `trigger` key matches every
event -/

/-- C10 (implicit behaviour): an active campaign whose stored
`triggerCondition` parses as valid JSON but has no `trigger` key is
treated as matching — `evaluateCampaignTrigger` returns `true` for every
trigger kind — so on every event dispatched for its agent the campaign's
actions all execute, wherever it sits in the campaign list. -/
theorem missing_trigger_key_matches_every_event (ctx : TriggerContext) (c : Campaign)
    (pre post : List Campaign) (st : Store) (now : Int)
    (hctx : ∀ leadId, ctx.leadId = some leadId → st.hasLead leadId = true)
    (hcond : c.triggerCondition = some ⟨none⟩) (hact : c.active = true) :
    evaluateCampaignTrigger c ctx = true ∧
    ∀ actions, c.actions = some actions →
      (∀ a ∈ actions, actionGood ctx a = true) →
      (checkCampaigns ctx (pre ++ c :: post) st now).2.2 =
        pre.flatMap (campaignTrace ctx) ++ (actions.map fun a => (c.id, a)) ++
          post.flatMap (campaignTrace ctx) := by
  have heval : evaluateCampaignTrigger c ctx = true := by
    simp [evaluateCampaignTrigger, hcond]
  refine ⟨heval, ?_⟩
  intro actions hacts hall
  obtain ⟨_, h2, _⟩ := checkCampaigns_spec ctx (pre ++ c :: post) st now hctx
  have htr : campaignTrace ctx c = actions.map fun a => (c.id, a) := by
    simp [campaignTrace, hact, heval, hacts, takeWhile_eq_of_all _ _ hall]
  rw [h2, List.flatMap_append, List.flatMap_cons, htr, List.append_assoc]

/-- C10 witness: a trigger-less active campaign runs its action on a
`lead.created` event. -/
theorem missing_trigger_key_witness :
    evaluateCampaignTrigger ⟨3, true, some ⟨none⟩, some [.sendEmail], 0, none⟩
      ⟨.lead_created, none⟩ = true ∧
    (checkCampaigns ⟨.lead_created, none⟩
        [⟨3, true, some ⟨none⟩, some [.sendEmail], 0, none⟩] ⟨[]⟩ 0).2.2 =
      [(3, .sendEmail)] := by
  have h := missing_trigger_key_matches_every_event ⟨.lead_created, none⟩
    ⟨3, true, some ⟨none⟩, some [.sendEmail], 0, none⟩ [] [] ⟨[]⟩ 0
    (fun _ hl => nomatch hl) rfl rfl
  refine ⟨h.1, ?_⟩
  have h2 := h.2 [.sendEmail] rfl (by decide)
  simpa using h2
